import Mathlib

/-!
Verification development for the Check_V repository: a mobile front-end
that hashes a file or accepts a SHA256 hash, queries the VirusTotal
report endpoint, caches results under the hash key, classifies severity
and renders an animated pie chart.

Modelling choices, each noted again at the definition it concerns:

- JavaScript numbers are modelled by `JsNum`: exact rationals extended
  with the two infinities and NaN, with the IEEE-style propagation rules
  of the arithmetic operators the chart math uses.  Rounding is
  idealized (exact rational arithmetic), but the qualitative behaviour
  of division by zero, which the source can hit, is preserved.

- The two lookup flows (checkHash on the hash-entry screen of
  src/unnamed/part_001, and the file-upload flow of src/explore.tsx
  whose lookup is checkVirusTotal) are modelled as pure state-passing
  functions over an explicit cache, returning also a trace of the
  externally visible events (cache read, network call, cache write,
  display, error display) in the order the source performs them.

- AsyncStorage stores JSON.stringify of the normalized result and the
  cache-hit path applies JSON.parse to the stored string; on the plain
  record values involved JSON.parse inverts JSON.stringify, so the
  cache is modelled as holding the ScanResult values themselves and
  byte-identity of the serialized forms becomes equality of values.
-/

/-! ## JavaScript numbers -/

/-- A JavaScript number: an exact rational, an infinity, or NaN. -/
inductive JsNum where
  | num (q : ℚ)
  | posInf
  | negInf
  | nan
deriving DecidableEq

/-- JavaScript addition. -/
def JsNum.add : JsNum → JsNum → JsNum
  | nan, _ => nan
  | _, nan => nan
  | num a, num b => num (a + b)
  | posInf, negInf => nan
  | negInf, posInf => nan
  | posInf, _ => posInf
  | negInf, _ => negInf
  | num _, posInf => posInf
  | num _, negInf => negInf

/-- JavaScript subtraction. -/
def JsNum.sub : JsNum → JsNum → JsNum
  | nan, _ => nan
  | _, nan => nan
  | num a, num b => num (a - b)
  | posInf, posInf => nan
  | negInf, negInf => nan
  | posInf, _ => posInf
  | negInf, _ => negInf
  | num _, posInf => negInf
  | num _, negInf => posInf

/-- JavaScript multiplication. -/
def JsNum.mul : JsNum → JsNum → JsNum
  | nan, _ => nan
  | _, nan => nan
  | num a, num b => num (a * b)
  | num a, posInf => if 0 < a then posInf else if a < 0 then negInf else nan
  | num a, negInf => if 0 < a then negInf else if a < 0 then posInf else nan
  | posInf, num b => if 0 < b then posInf else if b < 0 then negInf else nan
  | negInf, num b => if 0 < b then negInf else if b < 0 then posInf else nan
  | posInf, posInf => posInf
  | posInf, negInf => negInf
  | negInf, posInf => negInf
  | negInf, negInf => posInf

/-- JavaScript division.  Dividing a nonzero number by zero yields a
signed infinity and `0 / 0` yields NaN, exactly as in IEEE-754 with a
positive zero divisor. -/
def JsNum.div : JsNum → JsNum → JsNum
  | nan, _ => nan
  | _, nan => nan
  | num a, num b =>
      if b = 0 then (if 0 < a then posInf else if a < 0 then negInf else nan)
      else num (a / b)
  | num _, posInf => num 0
  | num _, negInf => num 0
  | posInf, num b => if 0 ≤ b then posInf else negInf
  | negInf, num b => if 0 ≤ b then negInf else posInf
  | posInf, _ => nan
  | negInf, _ => nan

/-! ## Data model (interfaces ScanResult, SliceData of the source) -/

/-- The aggregate counts object `last_analysis_stats`; all four counts
are non-negative integers. -/
structure Stats where
  malicious : Nat
  suspicious : Nat
  undetected : Nat
  harmless : Nat
deriving DecidableEq

/-- One entry of the normalized `vendors` sequence. -/
structure Vendor where
  vendor : String
  result : String
  category : String
deriving DecidableEq

/-- The normalized outcome of one lookup (interface ScanResult). -/
structure ScanResult where
  stats : Stats
  vendors : List Vendor
deriving DecidableEq

/-- One engine entry of `last_analysis_results`: `result` may be absent
(null / undefined in the response), `category` is a string. -/
structure EngineData where
  result : Option String
  category : String
deriving DecidableEq

/-- The relevant part of the VirusTotal response body
(`response.data.data.attributes`): the per-engine breakdown in its
object-entry order, and the aggregate counts. -/
structure VTResponse where
  last_analysis_results : List (String × EngineData)
  last_analysis_stats : Stats
deriving DecidableEq

/-- The JavaScript expression `s || dflt` on strings: the default is
taken when `s` is absent (undefined / null) or the empty string, both
of which are falsy. -/
def jsOr (s : Option String) (dflt : String) : String :=
  match s with
  | none => dflt
  | some v => if v = "" then dflt else v

/-- Normalization performed by both lookup flows on a successful
response: `vendors` is the entry-ordered map of
`Object.entries(analysisResults)` with
`result: data.result || Clean`, and `stats` is taken as-is. -/
def normalizeResponse (resp : VTResponse) : ScanResult :=
  { stats := resp.last_analysis_stats
    vendors := resp.last_analysis_results.map fun p =>
      { vendor := p.1, result := jsOr p.2.result "Clean", category := p.2.category } }

/-! ## Severity classifier -/

/-- `getSeverityLevel` from both screens (identical in
src/explore.tsx lines 304-312 and src/unnamed/part_001 lines 298-306):
`totalBad = malicious + suspicious`, thresholds checked in ascending
order, `Unknown` when no result is present. -/
def getSeverityLevel (results : Option ScanResult) : String :=
  match results with
  | none => "Unknown"
  | some r =>
    let totalBad := r.stats.malicious + r.stats.suspicious
    if totalBad = 0 then "Clean"
    else if totalBad ≤ 2 then "Low Risk"
    else if totalBad ≤ 5 then "Moderate Risk"
    else if totalBad ≤ 10 then "High Risk"
    else "Critical Risk"

/-- The classifier exactly as the specification words it: the closed
threshold table 0 / 1-2 / 3-5 / 6-10 / above 10, with `Unknown` when no
result is present.  This definition follows the spec text and is
compared against `getSeverityLevel`, which follows the source. -/
def classifySpecTable (results : Option ScanResult) : String :=
  match results with
  | none => "Unknown"
  | some r =>
    let totalBad := r.stats.malicious + r.stats.suspicious
    if totalBad = 0 then "Clean"
    else if 1 ≤ totalBad ∧ totalBad ≤ 2 then "Low Risk"
    else if 3 ≤ totalBad ∧ totalBad ≤ 5 then "Moderate Risk"
    else if 6 ≤ totalBad ∧ totalBad ≤ 10 then "High Risk"
    else "Critical Risk"

/-! ## Lookup flows -/

/-- The cache backed by AsyncStorage, modelled as an association list
from fingerprint keys to the stored (serialized, see the header note)
scan results.  `setItem` prepends, so the most recent write for a key
shadows older ones. -/
abbrev Cache := List (String × ScanResult)

/-- `AsyncStorage.getItem`. -/
def cacheGet : Cache → String → Option ScanResult
  | [], _ => none
  | (k, v) :: rest, key => if k = key then some v else cacheGet rest key

/-- `AsyncStorage.setItem`. -/
def cachePut (c : Cache) (key : String) (v : ScanResult) : Cache :=
  (key, v) :: c

/-- The externally visible actions of one lookup flow, in order. -/
inductive Event where
  | cacheRead (key : String)
  | networkCall (url : String)
  | cacheWrite (key : String) (value : ScanResult)
  | display (r : ScanResult)
  | showError (msg : String)
deriving DecidableEq

/-- What the user ends up seeing: a result display or an error display. -/
inductive Outcome where
  | display (r : ScanResult)
  | errorDisplay (msg : String)
deriving DecidableEq

/-- One run of a lookup flow: its outcome, the cache afterwards, and
the trace of events it performed. -/
structure FlowRun where
  outcome : Outcome
  cache : Cache
  events : List Event
deriving DecidableEq

/-- The request URL built by both flows. -/
def vtUrl (hash : String) : String :=
  "https://www.virustotal.com/api/v3/files/" ++ hash

/-- A character matched by the regex class `[a-fA-F0-9]`. -/
def isHexDigit (c : Char) : Bool :=
  (('a' ≤ c) && (c ≤ 'f')) || (('A' ≤ c) && (c ≤ 'F')) || (('0' ≤ c) && (c ≤ '9'))

/-- `input.match(/^[a-fA-F0-9]{64}$/)` is non-null exactly when the
string consists of 64 hex characters (JavaScript `$` without the `m`
flag matches only at the very end of the string). -/
def matchesSha256 (s : String) : Bool :=
  (s.length == 64) && s.toList.all isHexDigit

/-- `checkVirusTotal` of src/explore.tsx lines 265-301, the lookup of
the file-upload flow: read the cache under the hash key and display a
hit as parsed; on a miss issue the GET, normalize, write the cache
under the hash key, then display; any failure is caught and shown as a
single message string.  The remote call is the `net` argument: the
response body on success, the derived message
(`err.response.data.error.message || err.message`) on failure.
There is no input validation in this function. -/
def checkVirusTotal (hash : String) (cache : Cache) (net : Except String VTResponse) :
    FlowRun :=
  match cacheGet cache hash with
  | some r =>
      { outcome := Outcome.display r
        cache := cache
        events := [Event.cacheRead hash, Event.display r] }
  | none =>
      match net with
      | Except.ok resp =>
          let resultData := normalizeResponse resp
          { outcome := Outcome.display resultData
            cache := cachePut cache hash resultData
            events := [Event.cacheRead hash, Event.networkCall (vtUrl hash),
                       Event.cacheWrite hash resultData, Event.display resultData] }
      | Except.error msg =>
          { outcome := Outcome.errorDisplay ("VirusTotal Error: " ++ msg)
            cache := cache
            events := [Event.cacheRead hash, Event.networkCall (vtUrl hash),
                       Event.showError ("VirusTotal Error: " ++ msg)] }

/-- `checkHash` of src/unnamed/part_001 lines 251-296, the hash-entry
flow: inputs failing the regex test are rejected with the message
`Invalid SHA256 format` before the try block, so before any cache or
network access.  The body after validation is line for line the same
lookup logic as `checkVirusTotal` (cache read under the verbatim input,
the same GET URL, the same normalization, `setItem` under the verbatim
input, and the same `VirusTotal Error: ` message prefix), so it is
expressed by that function. -/
def checkHash (shaInput : String) (cache : Cache) (net : Except String VTResponse) :
    FlowRun :=
  if matchesSha256 shaInput then
    checkVirusTotal shaInput cache net
  else
    { outcome := Outcome.errorDisplay "Invalid SHA256 format"
      cache := cache
      events := [Event.showError "Invalid SHA256 format"] }

/-- The file-upload flow of src/explore.tsx (`pickDocument` then
`generateHash` then `checkVirusTotal`).  The picker and the hash
computation are external collaborators, passed as fallible arguments;
their failures are caught and shown with the source message prefixes
(`Error picking file: `, `Error generating hash: `).  On success the
computed digest goes to `checkVirusTotal` unvalidated.  Cancellation
of the picker (no asset selected) is not modelled: no claim concerns
it. -/
def uploadFlow (pick : Except String String) (hashOf : String → Except String String)
    (cache : Cache) (net : Except String VTResponse) : FlowRun :=
  match pick with
  | Except.error m =>
      { outcome := Outcome.errorDisplay ("Error picking file: " ++ m)
        cache := cache
        events := [Event.showError ("Error picking file: " ++ m)] }
  | Except.ok uri =>
      match hashOf uri with
      | Except.error m =>
          { outcome := Outcome.errorDisplay ("Error generating hash: " ++ m)
            cache := cache
            events := [Event.showError ("Error generating hash: " ++ m)] }
      | Except.ok h => checkVirusTotal h cache net

/-- Whether an event is a network call. -/
def isNetworkCall : Event → Bool
  | Event.networkCall _ => true
  | _ => false

/-- Number of network calls in a trace. -/
def countNetworkCalls (t : List Event) : Nat :=
  (t.filter isNetworkCall).length

/-! ### Sample data for concrete runs -/

/-- A 64-character lowercase fingerprint. -/
def fpLo : String := String.mk (List.replicate 64 'a')

/-- The same fingerprint spelled in uppercase. -/
def fpUp : String := String.mk (List.replicate 64 'A')

/-- A small response body: one engine with no result string, one with
an empty result string, one with an explicit detection. -/
def sampleResp : VTResponse :=
  { last_analysis_results :=
      [("EngineA", { result := none, category := "undetected" }),
       ("EngineB", { result := some "", category := "harmless" }),
       ("EngineC", { result := some "Trojan.Gen", category := "malicious" })]
    last_analysis_stats := { malicious := 1, suspicious := 0, undetected := 1, harmless := 1 } }

/-- A second, distinguishable response body. -/
def sampleResp2 : VTResponse :=
  { last_analysis_results := [("EngineD", { result := none, category := "undetected" })]
    last_analysis_stats := { malicious := 0, suspicious := 0, undetected := 1, harmless := 0 } }

/-- A cache holding only the lowercase spelling of the fingerprint. -/
def cachedLo : Cache := cachePut [] fpLo (normalizeResponse sampleResp)

/-! ## Chart renderer -/

/-- One element of the data array handed to AnimatedPieChart. -/
structure SliceData where
  value : JsNum
  color : String
deriving DecidableEq

/-- The circular-arc descriptor of one rendered slice: the pair of
angles handed to `describeArc` (which turns them into the SVG path
string) and the fill color. -/
structure ArcSpec where
  startAngle : JsNum
  endAngle : JsNum
  color : String
deriving DecidableEq

/-- `data.reduce((sum, item) => sum + item.value, 0)` of
AnimatedPieChart. -/
def chartTotal (data : List SliceData) : JsNum :=
  data.foldl (fun sum item => sum.add item.value) (JsNum.num 0)

/-- The body of `data.map` in AnimatedPieChart, carrying the mutable
`cumulativeAngle` across slices:
`sliceAngle = (slice.value / total) * 360`,
`animatedEndAngle = cumulativeAngle + sliceAngle * progress`, the arc
runs from `cumulativeAngle` to `animatedEndAngle`, and the cumulative
angle advances by the full (unanimated) `sliceAngle`. -/
def chartSlicesGo (total progress : JsNum) : JsNum → List SliceData → List ArcSpec
  | _, [] => []
  | cumulativeAngle, slice :: rest =>
      { startAngle := cumulativeAngle
        endAngle := cumulativeAngle.add (((slice.value.div total).mul (JsNum.num 360)).mul progress)
        color := slice.color }
        :: chartSlicesGo total progress
            (cumulativeAngle.add ((slice.value.div total).mul (JsNum.num 360))) rest

/-- AnimatedPieChart (src/explore.tsx lines 138-156 and
src/unnamed/part_001 lines 147-165): total, then the slice arcs with
cumulative angle starting at 0. -/
def chartSlices (data : List SliceData) (progress : JsNum) : List ArcSpec :=
  chartSlicesGo (chartTotal data) progress (JsNum.num 0) data

/-- The `pieData` array built from a result (order malicious,
suspicious, harmless, undetected; the danger, success and undetected
colors come from the theme, the suspicious color is the literal
`#FFC107` in both screens). -/
def pieData (stats : Stats) (dangerColor successColor undetectedColor : String) :
    List SliceData :=
  [ { value := JsNum.num stats.malicious, color := dangerColor },
    { value := JsNum.num stats.suspicious, color := "#FFC107" },
    { value := JsNum.num stats.harmless, color := successColor },
    { value := JsNum.num stats.undetected, color := undetectedColor } ]

/-- Sum of the angular widths of a list of arcs. -/
def spanSum (arcs : List ArcSpec) : JsNum :=
  arcs.foldl (fun s a => s.add (a.endAngle.sub a.startAngle)) (JsNum.num 0)

/-! ### Rational-valued chart inputs and prefix sums -/

/-- A list of slice values and colors embedded as chart data (all
values ordinary numbers). -/
def toSliceData (vs : List (ℚ × String)) : List SliceData :=
  vs.map fun p => { value := JsNum.num p.1, color := p.2 }

/-- Total of the slice values. -/
def valueTotal (vs : List (ℚ × String)) : ℚ :=
  (vs.map Prod.fst).sum

/-- Sum of the slice values strictly before index `k`. -/
def valueBefore (vs : List (ℚ × String)) (k : Nat) : ℚ :=
  ((vs.take k).map Prod.fst).sum

/-- Demonstration data for the witnesses. -/
def demoVs : List (ℚ × String) := [(1, "#F44336"), (3, "#4CAF50")]

/-! ### Screen geometry of the chart -/

/-- `polarToCartesian` of the source: angle 0 is mapped to the top of
the circle (the built-in shift by 90 degrees), angles grow clockwise on
screen. -/
noncomputable def polarToCartesian (centerX centerY radius angleInDegrees : ℝ) : ℝ × ℝ :=
  (centerX + radius * Real.cos ((angleInDegrees - 90) * Real.pi / 180),
   centerY + radius * Real.sin ((angleInDegrees - 90) * Real.pi / 180))

/-- The SVG transform `rotate(deg, ox, oy)` applied by the `G` element
(`rotation` with `origin`), in the y-down screen coordinate system. -/
noncomputable def svgRotate (deg ox oy : ℝ) (p : ℝ × ℝ) : ℝ × ℝ :=
  (ox + (p.1 - ox) * Real.cos (deg * Real.pi / 180) - (p.2 - oy) * Real.sin (deg * Real.pi / 180),
   oy + (p.1 - ox) * Real.sin (deg * Real.pi / 180) + (p.2 - oy) * Real.cos (deg * Real.pi / 180))

/-- Where an arc angle of the chart lands on screen: the source wraps
the slices in a group rotated by -90 degrees about the chart center
(`rotation="-90"`, `origin` at width/2, height/2) on top of the
90-degree shift already inside `polarToCartesian`. -/
noncomputable def chartScreenPoint (width height outerRadius angleInDegrees : ℝ) : ℝ × ℝ :=
  svgRotate (-90) (width / 2) (height / 2)
    (polarToCartesian (width / 2) (height / 2) outerRadius angleInDegrees)

/-! ## Theorems -/

@[simp] theorem JsNum.add_num (a b : ℚ) : (JsNum.num a).add (JsNum.num b) = JsNum.num (a + b) := rfl

@[simp] theorem JsNum.sub_num (a b : ℚ) : (JsNum.num a).sub (JsNum.num b) = JsNum.num (a - b) := rfl

@[simp] theorem JsNum.mul_num (a b : ℚ) : (JsNum.num a).mul (JsNum.num b) = JsNum.num (a * b) := rfl

theorem JsNum.div_num (a b : ℚ) (hb : b ≠ 0) :
    (JsNum.num a).div (JsNum.num b) = JsNum.num (a / b) := by
  simp [JsNum.div, hb]

/-- Claim C1: the severity classifier is a total, deterministic,
side-effect-free function of the stats that agrees everywhere with the
threshold table of the specification (Clean at 0, Low Risk at 1-2,
Moderate Risk at 3-5, High Risk at 6-10, Critical Risk above 10, and
Unknown when no result is present).  Totality and freedom from side
effects hold because `getSeverityLevel` is a Lean function. -/
theorem claim1_severity_classifier :
    ∀ results : Option ScanResult, getSeverityLevel results = classifySpecTable results := by
  intro results
  cases results with
  | none => rfl
  | some r =>
      simp only [getSeverityLevel, classifySpecTable]
      split_ifs <;> first | rfl | omega

/-! ### Cache lemmas -/

theorem cacheGet_put_same (c : Cache) (k : String) (v : ScanResult) :
    cacheGet (cachePut c k v) k = some v := by
  simp [cacheGet, cachePut]

theorem cacheGet_put_other (c : Cache) (k key : String) (v : ScanResult)
    (h : k ≠ key) : cacheGet (cachePut c k v) key = cacheGet c key := by
  simp [cacheGet, cachePut, h]

/-! ### Flow shape lemmas -/

theorem checkVirusTotal_hit (fp : String) (cache : Cache) (net : Except String VTResponse)
    (r : ScanResult) (h : cacheGet cache fp = some r) :
    checkVirusTotal fp cache net =
      { outcome := Outcome.display r
        cache := cache
        events := [Event.cacheRead fp, Event.display r] } := by
  simp only [checkVirusTotal, h]

theorem checkVirusTotal_miss_ok (fp : String) (cache : Cache) (resp : VTResponse)
    (h : cacheGet cache fp = none) :
    checkVirusTotal fp cache (Except.ok resp) =
      { outcome := Outcome.display (normalizeResponse resp)
        cache := cachePut cache fp (normalizeResponse resp)
        events := [Event.cacheRead fp, Event.networkCall (vtUrl fp),
                   Event.cacheWrite fp (normalizeResponse resp),
                   Event.display (normalizeResponse resp)] } := by
  simp only [checkVirusTotal, h]

theorem checkVirusTotal_miss_err (fp : String) (cache : Cache) (msg : String)
    (h : cacheGet cache fp = none) :
    checkVirusTotal fp cache (Except.error msg) =
      { outcome := Outcome.errorDisplay ("VirusTotal Error: " ++ msg)
        cache := cache
        events := [Event.cacheRead fp, Event.networkCall (vtUrl fp),
                   Event.showError ("VirusTotal Error: " ++ msg)] } := by
  simp only [checkVirusTotal, h]

theorem checkHash_invalid (input : String) (cache : Cache) (net : Except String VTResponse)
    (h : matchesSha256 input = false) :
    checkHash input cache net =
      { outcome := Outcome.errorDisplay "Invalid SHA256 format"
        cache := cache
        events := [Event.showError "Invalid SHA256 format"] } := by
  simp [checkHash, h]

theorem checkHash_valid (input : String) (cache : Cache) (net : Except String VTResponse)
    (h : matchesSha256 input = true) :
    checkHash input cache net = checkVirusTotal input cache net := by
  simp [checkHash, h]

theorem checkVirusTotal_head (fp : String) (cache : Cache) (net : Except String VTResponse) :
    (checkVirusTotal fp cache net).events.head? = some (Event.cacheRead fp) := by
  cases h : cacheGet cache fp with
  | some r => simp [checkVirusTotal_hit fp cache net r h]
  | none =>
      cases net with
      | ok resp => simp [checkVirusTotal_miss_ok fp cache resp h]
      | error msg => simp [checkVirusTotal_miss_err fp cache msg h]

theorem checkVirusTotal_netcount (fp : String) (cache : Cache) (net : Except String VTResponse) :
    countNetworkCalls (checkVirusTotal fp cache net).events ≤ 1 := by
  cases h : cacheGet cache fp with
  | some r => simp [checkVirusTotal_hit fp cache net r h, countNetworkCalls, isNetworkCall]
  | none =>
      cases net with
      | ok resp =>
          simp [checkVirusTotal_miss_ok fp cache resp h, countNetworkCalls, isNetworkCall]
      | error msg =>
          simp [checkVirusTotal_miss_err fp cache msg h, countNetworkCalls, isNetworkCall]

theorem checkHash_netcount (input : String) (cache : Cache) (net : Except String VTResponse) :
    countNetworkCalls (checkHash input cache net).events ≤ 1 := by
  cases h : matchesSha256 input with
  | true => rw [checkHash_valid input cache net h]; exact checkVirusTotal_netcount input cache net
  | false => simp [checkHash_invalid input cache net h, countNetworkCalls, isNetworkCall]

theorem uploadFlow_netcount (pick : Except String String)
    (hashOf : String → Except String String) (cache : Cache)
    (net : Except String VTResponse) :
    countNetworkCalls (uploadFlow pick hashOf cache net).events ≤ 1 := by
  cases pick with
  | error m => simp [uploadFlow, countNetworkCalls, isNetworkCall]
  | ok uri =>
      cases hh : hashOf uri with
      | error m => simp [uploadFlow, hh, countNetworkCalls, isNetworkCall]
      | ok h => simpa [uploadFlow, hh] using checkVirusTotal_netcount h cache net

theorem checkVirusTotal_cache_mono (input : String) (cache : Cache)
    (net : Except String VTResponse) (fp : String) (r : ScanResult)
    (h : cacheGet cache fp = some r) :
    cacheGet (checkVirusTotal input cache net).cache fp = some r := by
  cases hc : cacheGet cache input with
  | some r2 => simpa [checkVirusTotal_hit input cache net r2 hc] using h
  | none =>
      cases net with
      | error msg => simpa [checkVirusTotal_miss_err input cache msg hc] using h
      | ok resp =>
          have hne : input ≠ fp := by
            intro he
            rw [he, h] at hc
            exact Option.noConfusion hc
          rw [checkVirusTotal_miss_ok input cache resp hc]
          simpa [cacheGet_put_other _ _ _ _ hne] using h

theorem checkHash_cache_mono (input : String) (cache : Cache)
    (net : Except String VTResponse) (fp : String) (r : ScanResult)
    (h : cacheGet cache fp = some r) :
    cacheGet (checkHash input cache net).cache fp = some r := by
  cases hv : matchesSha256 input with
  | true =>
      rw [checkHash_valid input cache net hv]
      exact checkVirusTotal_cache_mono input cache net fp r h
  | false => simpa [checkHash_invalid input cache net hv] using h

/-! ## Claim C2 (input validation) -/

/-- Claim C2 fails as stated: the file-upload flow performs no
fingerprint validation.  With the malformed fingerprint `zz` coming out
of the hashing collaborator, the upload flow performs a cache read as
its very first action, issues a network call, and terminates in the
result display rather than in the InvalidInput error display. -/
theorem claim2_counterexample :
    matchesSha256 "zz" = false ∧
    (uploadFlow (Except.ok "file.bin") (fun _ => Except.ok "zz") []
        (Except.ok sampleResp)).events.head? = some (Event.cacheRead "zz") ∧
    (uploadFlow (Except.ok "file.bin") (fun _ => Except.ok "zz") []
        (Except.ok sampleResp)).outcome = Outcome.display (normalizeResponse sampleResp) ∧
    countNetworkCalls (uploadFlow (Except.ok "file.bin") (fun _ => Except.ok "zz") []
        (Except.ok sampleResp)).events = 1 := by
  decide

/-- Claim C2 as amended: only the hash-entry flow validates.  For every
fingerprint failing the 64-hex-character test, `checkHash` reaches the
InvalidInput error display with no cache access and no network call,
while the lookup of the file-upload flow (`checkVirusTotal`) proceeds
straight to the cache read for any fingerprint whatsoever. -/
theorem claim2_amended_validation (input : String) (cache : Cache)
    (net : Except String VTResponse) (h : matchesSha256 input = false) :
    checkHash input cache net =
      { outcome := Outcome.errorDisplay "Invalid SHA256 format"
        cache := cache
        events := [Event.showError "Invalid SHA256 format"] } ∧
    (checkVirusTotal input cache net).events.head? = some (Event.cacheRead input) :=
  ⟨checkHash_invalid input cache net h, checkVirusTotal_head input cache net⟩

theorem claim2_amended_witness :
    matchesSha256 "zz" = false ∧
    (checkHash "zz" [] (Except.error "down") =
      { outcome := Outcome.errorDisplay "Invalid SHA256 format"
        cache := []
        events := [Event.showError "Invalid SHA256 format"] } ∧
     (checkVirusTotal "zz" [] (Except.error "down")).events.head? =
       some (Event.cacheRead "zz")) :=
  ⟨by decide, claim2_amended_validation "zz" [] (Except.error "down") (by decide)⟩

/-! ## Claim C3 (cache consulted first, hit short-circuits network) -/

/-- Claim C3: every lookup consults the cache before any network call
(the cache read is the first event of both lookup entry points); when
the cache holds an entry for the fingerprint the lookup issues no
network call and returns exactly the stored ScanResult; and looking up
the same fingerprint twice, where the first run populates the cache and
the second hits it, performs one network call in total while the second
run returns the same result as the first. -/
theorem claim3_cache_first :
    (∀ (fp : String) (cache : Cache) (net : Except String VTResponse),
       (checkVirusTotal fp cache net).events.head? = some (Event.cacheRead fp)) ∧
    (∀ (fp : String) (cache : Cache) (net : Except String VTResponse) (r : ScanResult),
       cacheGet cache fp = some r →
       checkVirusTotal fp cache net =
         { outcome := Outcome.display r
           cache := cache
           events := [Event.cacheRead fp, Event.display r] }) ∧
    (∀ (fp : String) (cache : Cache) (net : Except String VTResponse) (r : ScanResult),
       matchesSha256 fp = true → cacheGet cache fp = some r →
       checkHash fp cache net =
         { outcome := Outcome.display r
           cache := cache
           events := [Event.cacheRead fp, Event.display r] }) ∧
    (∀ (fp : String) (cache : Cache) (resp : VTResponse) (net2 : Except String VTResponse),
       matchesSha256 fp = true → cacheGet cache fp = none →
       countNetworkCalls (checkHash fp cache (Except.ok resp)).events +
         countNetworkCalls
           (checkHash fp (checkHash fp cache (Except.ok resp)).cache net2).events = 1 ∧
       (checkHash fp (checkHash fp cache (Except.ok resp)).cache net2).outcome =
         (checkHash fp cache (Except.ok resp)).outcome ∧
       (checkHash fp (checkHash fp cache (Except.ok resp)).cache net2).outcome =
         Outcome.display (normalizeResponse resp)) := by
  refine ⟨checkVirusTotal_head, ?_, ?_, ?_⟩
  · intro fp cache net r h
    exact checkVirusTotal_hit fp cache net r h
  · intro fp cache net r hv h
    rw [checkHash_valid fp cache net hv]
    exact checkVirusTotal_hit fp cache net r h
  · intro fp cache resp net2 hv hc
    have h1 : checkHash fp cache (Except.ok resp) =
        { outcome := Outcome.display (normalizeResponse resp)
          cache := cachePut cache fp (normalizeResponse resp)
          events := [Event.cacheRead fp, Event.networkCall (vtUrl fp),
                     Event.cacheWrite fp (normalizeResponse resp),
                     Event.display (normalizeResponse resp)] } := by
      rw [checkHash_valid fp cache _ hv]
      exact checkVirusTotal_miss_ok fp cache resp hc
    have h2 : checkHash fp (checkHash fp cache (Except.ok resp)).cache net2 =
        { outcome := Outcome.display (normalizeResponse resp)
          cache := (checkHash fp cache (Except.ok resp)).cache
          events := [Event.cacheRead fp, Event.display (normalizeResponse resp)] } := by
      rw [checkHash_valid fp _ net2 hv]
      refine checkVirusTotal_hit fp _ net2 (normalizeResponse resp) ?_
      rw [h1]
      exact cacheGet_put_same cache fp (normalizeResponse resp)
    refine ⟨?_, ?_, ?_⟩
    · rw [h2, h1]; rfl
    · rw [h2, h1]
    · rw [h2]

theorem claim3_witness :
    (matchesSha256 fpLo = true ∧ cacheGet [] fpLo = none) ∧
    (countNetworkCalls (checkHash fpLo [] (Except.ok sampleResp)).events +
       countNetworkCalls
         (checkHash fpLo (checkHash fpLo [] (Except.ok sampleResp)).cache
           (Except.error "down")).events = 1 ∧
     (checkHash fpLo (checkHash fpLo [] (Except.ok sampleResp)).cache
         (Except.error "down")).outcome =
       (checkHash fpLo [] (Except.ok sampleResp)).outcome ∧
     (checkHash fpLo (checkHash fpLo [] (Except.ok sampleResp)).cache
         (Except.error "down")).outcome = Outcome.display (normalizeResponse sampleResp)) :=
  ⟨⟨by decide, by decide⟩,
   claim3_cache_first.2.2.2 fpLo [] sampleResp (Except.error "down") (by decide) (by decide)⟩

/-! ## Claim C6 (cache written once, on success, before display) -/

/-- Claim C6: on a successful remote fetch the normalized result is
written to the cache under the fingerprint key before the display event
(the full success trace is read, network, write, display); a failed
fetch, an invalid input and a cache hit all leave the cache unchanged;
an entry, once present, survives every later run unchanged; and a
later lookup of that fingerprint displays exactly the stored verdict. -/
theorem claim6_cache_lifecycle :
    (∀ (input : String) (cache : Cache) (resp : VTResponse),
       matchesSha256 input = true → cacheGet cache input = none →
       checkHash input cache (Except.ok resp) =
         { outcome := Outcome.display (normalizeResponse resp)
           cache := cachePut cache input (normalizeResponse resp)
           events := [Event.cacheRead input, Event.networkCall (vtUrl input),
                      Event.cacheWrite input (normalizeResponse resp),
                      Event.display (normalizeResponse resp)] }) ∧
    (∀ (input : String) (cache : Cache) (msg : String),
       (checkHash input cache (Except.error msg)).cache = cache) ∧
    (∀ (input : String) (cache : Cache) (net : Except String VTResponse)
       (fp : String) (r : ScanResult), cacheGet cache fp = some r →
       cacheGet (checkHash input cache net).cache fp = some r) ∧
    (∀ (input : String) (cache : Cache) (net : Except String VTResponse)
       (fp : String) (r : ScanResult), cacheGet cache fp = some r →
       cacheGet (checkVirusTotal input cache net).cache fp = some r) ∧
    (∀ (fp : String) (cache : Cache) (net : Except String VTResponse) (r : ScanResult),
       matchesSha256 fp = true → cacheGet cache fp = some r →
       (checkHash fp cache net).outcome = Outcome.display r) := by
  refine ⟨?_, ?_, checkHash_cache_mono, checkVirusTotal_cache_mono, ?_⟩
  · intro input cache resp hv hc
    rw [checkHash_valid input cache _ hv]
    exact checkVirusTotal_miss_ok input cache resp hc
  · intro input cache msg
    cases hv : matchesSha256 input with
    | false => rw [checkHash_invalid input cache _ hv]
    | true =>
        rw [checkHash_valid input cache _ hv]
        cases hc : cacheGet cache input with
        | some r => rw [checkVirusTotal_hit input cache _ r hc]
        | none => rw [checkVirusTotal_miss_err input cache msg hc]
  · intro fp cache net r hv hc
    rw [checkHash_valid fp cache net hv, checkVirusTotal_hit fp cache net r hc]

theorem claim6_witness :
    (matchesSha256 fpLo = true ∧ cacheGet [] fpLo = none) ∧
    checkHash fpLo [] (Except.ok sampleResp) =
      { outcome := Outcome.display (normalizeResponse sampleResp)
        cache := cachePut [] fpLo (normalizeResponse sampleResp)
        events := [Event.cacheRead fpLo, Event.networkCall (vtUrl fpLo),
                   Event.cacheWrite fpLo (normalizeResponse sampleResp),
                   Event.display (normalizeResponse sampleResp)] } :=
  ⟨⟨by decide, by decide⟩,
   claim6_cache_lifecycle.1 fpLo [] sampleResp (by decide) (by decide)⟩

/-! ## Claim C9 (failures become one message, no retry) -/

/-- Claim C9: every lookup invocation issues at most one network call
(hash-entry flow and the whole file-upload flow alike); a failed remote
fetch surfaces immediately as the single user-visible message with the
`VirusTotal Error: ` prefix and exactly one network call in the trace;
and picker and hash failures in the upload flow are each converted to
their single message string with no network call at all. -/
theorem claim9_single_attempt :
    (∀ (input : String) (cache : Cache) (net : Except String VTResponse),
       countNetworkCalls (checkHash input cache net).events ≤ 1) ∧
    (∀ (pick : Except String String) (hashOf : String → Except String String)
       (cache : Cache) (net : Except String VTResponse),
       countNetworkCalls (uploadFlow pick hashOf cache net).events ≤ 1) ∧
    (∀ (input : String) (cache : Cache) (msg : String),
       matchesSha256 input = true → cacheGet cache input = none →
       checkHash input cache (Except.error msg) =
         { outcome := Outcome.errorDisplay ("VirusTotal Error: " ++ msg)
           cache := cache
           events := [Event.cacheRead input, Event.networkCall (vtUrl input),
                      Event.showError ("VirusTotal Error: " ++ msg)] }) ∧
    (∀ (m : String) (hashOf : String → Except String String) (cache : Cache)
       (net : Except String VTResponse),
       uploadFlow (Except.error m) hashOf cache net =
         { outcome := Outcome.errorDisplay ("Error picking file: " ++ m)
           cache := cache
           events := [Event.showError ("Error picking file: " ++ m)] }) ∧
    (∀ (uri m : String) (cache : Cache) (net : Except String VTResponse),
       uploadFlow (Except.ok uri) (fun _ => Except.error m) cache net =
         { outcome := Outcome.errorDisplay ("Error generating hash: " ++ m)
           cache := cache
           events := [Event.showError ("Error generating hash: " ++ m)] }) := by
  refine ⟨checkHash_netcount, uploadFlow_netcount, ?_, ?_, ?_⟩
  · intro input cache msg hv hc
    rw [checkHash_valid input cache _ hv]
    exact checkVirusTotal_miss_err input cache msg hc
  · intro m hashOf cache net
    rfl
  · intro uri m cache net
    rfl

theorem claim9_witness :
    (matchesSha256 fpLo = true ∧ cacheGet [] fpLo = none) ∧
    checkHash fpLo [] (Except.error "timeout") =
      { outcome := Outcome.errorDisplay ("VirusTotal Error: " ++ "timeout")
        cache := []
        events := [Event.cacheRead fpLo, Event.networkCall (vtUrl fpLo),
                   Event.showError ("VirusTotal Error: " ++ "timeout")] } :=
  ⟨⟨by decide, by decide⟩,
   claim9_single_attempt.2.2.1 fpLo [] "timeout" (by decide) (by decide)⟩

/-- Claim C10: the hash-entry validation accepts the uppercase spelling
as well as the lowercase one; the accepted input is used verbatim as
cache key and in the request URL (visible in the trace of the uppercase
run); and the two spellings are distinct keys: with a result cached
under the lowercase spelling, the uppercase lookup misses the cache and
issues a network call, while the lowercase lookup hits and issues
none. -/
theorem claim10_case_sensitive_keys :
    matchesSha256 fpLo = true ∧
    matchesSha256 fpUp = true ∧
    fpLo ≠ fpUp ∧
    cacheGet cachedLo fpLo = some (normalizeResponse sampleResp) ∧
    cacheGet cachedLo fpUp = none ∧
    checkHash fpUp cachedLo (Except.ok sampleResp2) =
      { outcome := Outcome.display (normalizeResponse sampleResp2)
        cache := cachePut cachedLo fpUp (normalizeResponse sampleResp2)
        events := [Event.cacheRead fpUp, Event.networkCall (vtUrl fpUp),
                   Event.cacheWrite fpUp (normalizeResponse sampleResp2),
                   Event.display (normalizeResponse sampleResp2)] } ∧
    (checkHash fpLo cachedLo (Except.ok sampleResp2)).outcome =
      Outcome.display (normalizeResponse sampleResp) ∧
    countNetworkCalls (checkHash fpLo cachedLo (Except.ok sampleResp2)).events = 0 := by
  decide

/-! ## Claim C7 (normalization of the per-engine map) -/

/-- Claim C7: normalization maps the per-engine verdict object to the
ordered `vendors` sequence, one entry per engine in entry order,
carrying the engine name and category through and replacing an absent
or empty result string by the sentinel `Clean`; the stats object is
carried through unchanged. -/
theorem claim7_normalization :
    (∀ resp : VTResponse, (normalizeResponse resp).stats = resp.last_analysis_stats) ∧
    (∀ resp : VTResponse,
       (normalizeResponse resp).vendors.length = resp.last_analysis_results.length) ∧
    (∀ (resp : VTResponse) (i : Nat) (name : String) (d : EngineData),
       resp.last_analysis_results[i]? = some (name, d) →
       (normalizeResponse resp).vendors[i]? =
         some { vendor := name, result := jsOr d.result "Clean", category := d.category }) ∧
    (∀ (resp : VTResponse) (i : Nat) (name : String) (d : EngineData),
       resp.last_analysis_results[i]? = some (name, d) →
       (d.result = none ∨ d.result = some "") →
       ((normalizeResponse resp).vendors[i]?).map Vendor.result = some "Clean") := by
  refine ⟨fun resp => rfl, fun resp => by simp [normalizeResponse], ?_, ?_⟩
  · intro resp i name d h
    simp [normalizeResponse, h]
  · intro resp i name d h hd
    rcases hd with hd | hd <;> simp [normalizeResponse, h, jsOr, hd]

theorem claim7_witness :
    (sampleResp.last_analysis_results[0]? =
       some ("EngineA", { result := none, category := "undetected" }) ∧
     (({ result := none, category := "undetected" } : EngineData).result = none ∨
      ({ result := none, category := "undetected" } : EngineData).result = some "")) ∧
    ((normalizeResponse sampleResp).vendors[0]?).map Vendor.result = some "Clean" :=
  ⟨⟨by decide, Or.inl rfl⟩,
   claim7_normalization.2.2.2 sampleResp 0 "EngineA"
     { result := none, category := "undetected" } (by decide) (Or.inl rfl)⟩

/-! ## Claim C4 (all-zero chart input) -/

/-- Claim C4 against the code: with all-zero stats the chart total is
zero and every slice angle is computed as `(0 / 0) * 360`, which is
NaN: the renderer returns four slices whose end angles (and widths) are
NaN, so the slice set is neither empty nor of zero angular width.
This documents the divergence of the code from the claim; the
evaluation below is the failing input. -/
theorem claim4_zero_total_nan :
    chartTotal (pieData { malicious := 0, suspicious := 0, undetected := 0, harmless := 0 }
        "#F44336" "#4CAF50" "#9E9E9E") = JsNum.num 0 ∧
    (chartSlices (pieData { malicious := 0, suspicious := 0, undetected := 0, harmless := 0 }
        "#F44336" "#4CAF50" "#9E9E9E") (JsNum.num 1)).length = 4 ∧
    (chartSlices (pieData { malicious := 0, suspicious := 0, undetected := 0, harmless := 0 }
        "#F44336" "#4CAF50" "#9E9E9E") (JsNum.num 1)).map ArcSpec.endAngle =
      [JsNum.nan, JsNum.nan, JsNum.nan, JsNum.nan] ∧
    ((chartSlices (pieData { malicious := 0, suspicious := 0, undetected := 0, harmless := 0 }
        "#F44336" "#4CAF50" "#9E9E9E") (JsNum.num 1))[0]?).map
        (fun a => a.endAngle.sub a.startAngle) = some JsNum.nan := by
  refine ⟨?_, ?_, ?_, ?_⟩ <;>
    simp [pieData, chartTotal, chartSlices, chartSlicesGo, JsNum.add, JsNum.div,
          JsNum.mul, JsNum.sub]

@[simp] theorem valueBefore_cons_succ (q : ℚ × String) (rest : List (ℚ × String)) (n : Nat) :
    valueBefore (q :: rest) (n + 1) = q.1 + valueBefore rest n := by
  simp [valueBefore]

theorem valueBefore_succ_eq (vs : List (ℚ × String)) :
    ∀ (i : Nat) (v : ℚ) (col : String), vs[i]? = some (v, col) →
      valueBefore vs (i + 1) = valueBefore vs i + v := by
  induction vs with
  | nil => intro i v col h; simp at h
  | cons q rest ih =>
      intro i v col h
      cases i with
      | zero =>
          obtain rfl : q = (v, col) := by simpa using h
          simp [valueBefore]
      | succ n =>
          have hrest : rest[n]? = some (v, col) := by simpa using h
          have hn := ih n v col hrest
          simp only [valueBefore_cons_succ, hn]
          ring

theorem chartSlicesGo_length (total progress : JsNum) :
    ∀ (c : JsNum) (data : List SliceData),
      (chartSlicesGo total progress c data).length = data.length := by
  intro c data
  induction data generalizing c with
  | nil => rfl
  | cons s rest ih => simp [chartSlicesGo, ih]

theorem chartSlices_length (data : List SliceData) (progress : JsNum) :
    (chartSlices data progress).length = data.length := by
  unfold chartSlices
  exact chartSlicesGo_length _ _ _ _

theorem chartTotal_go (vs : List (ℚ × String)) :
    ∀ c : ℚ, (toSliceData vs).foldl (fun sum item => sum.add item.value) (JsNum.num c) =
      JsNum.num (c + valueTotal vs) := by
  induction vs with
  | nil => intro c; simp [toSliceData, valueTotal]
  | cons q rest ih =>
      intro c
      simp only [toSliceData, List.map_cons, List.foldl_cons, JsNum.add_num]
      have ihn := ih (c + q.1)
      simp only [toSliceData] at ihn
      rw [ihn]
      have h : valueTotal (q :: rest) = q.1 + valueTotal rest := by simp [valueTotal]
      rw [h]
      exact congrArg JsNum.num (by ring)

theorem chartTotal_eq (vs : List (ℚ × String)) :
    chartTotal (toSliceData vs) = JsNum.num (valueTotal vs) := by
  have h := chartTotal_go vs 0
  simpa [chartTotal] using h

theorem chartSlicesGo_getElem (T p : ℚ) (hT : T ≠ 0) :
    ∀ (vs : List (ℚ × String)) (c : ℚ) (i : Nat) (v : ℚ) (col : String),
      vs[i]? = some (v, col) →
      (chartSlicesGo (JsNum.num T) (JsNum.num p) (JsNum.num c) (toSliceData vs))[i]? =
        some { startAngle := JsNum.num (c + 360 * valueBefore vs i / T)
               endAngle := JsNum.num (c + 360 * valueBefore vs i / T + 360 * v / T * p)
               color := col } := by
  intro vs
  induction vs with
  | nil => intro c i v col h; simp at h
  | cons q rest ih =>
      intro c i v col h
      have hdiv : ∀ a : ℚ, (JsNum.num a).div (JsNum.num T) = JsNum.num (a / T) :=
        fun a => JsNum.div_num a T hT
      cases i with
      | zero =>
          obtain rfl : q = (v, col) := by simpa using h
          simp only [toSliceData, List.map_cons, chartSlicesGo, List.getElem?_cons_zero,
                     hdiv, JsNum.mul_num, JsNum.add_num, valueBefore, List.take_zero,
                     List.map_nil, List.sum_nil, Option.some.injEq, ArcSpec.mk.injEq,
                     JsNum.num.injEq]
          refine ⟨by ring, by ring, trivial⟩
      | succ n =>
          have hrest : rest[n]? = some (v, col) := by simpa using h
          have ihn := ih (c + q.1 / T * 360) n v col hrest
          simp only [toSliceData] at ihn
          simp only [toSliceData, List.map_cons, chartSlicesGo, List.getElem?_cons_succ,
                     hdiv, JsNum.mul_num, JsNum.add_num]
          rw [ihn]
          simp only [valueBefore_cons_succ, Option.some.injEq, ArcSpec.mk.injEq,
                     JsNum.num.injEq]
          refine ⟨by ring, by ring, trivial⟩

theorem chartSlices_getElem (vs : List (ℚ × String)) (p : ℚ) (hT : valueTotal vs ≠ 0)
    (i : Nat) (v : ℚ) (col : String) (h : vs[i]? = some (v, col)) :
    (chartSlices (toSliceData vs) (JsNum.num p))[i]? =
      some { startAngle := JsNum.num (360 * valueBefore vs i / valueTotal vs)
             endAngle := JsNum.num (360 * valueBefore vs i / valueTotal vs +
                                     360 * v / valueTotal vs * p)
             color := col } := by
  unfold chartSlices
  rw [chartTotal_eq]
  rw [chartSlicesGo_getElem (valueTotal vs) p hT vs 0 i v col h]
  simp only [Option.some.injEq, ArcSpec.mk.injEq, JsNum.num.injEq]
  refine ⟨by ring, by ring, trivial⟩

theorem spanSum_go (T : ℚ) (hT : T ≠ 0) :
    ∀ (vs : List (ℚ × String)) (c acc : ℚ),
      (chartSlicesGo (JsNum.num T) (JsNum.num 1) (JsNum.num c) (toSliceData vs)).foldl
          (fun s a => s.add (a.endAngle.sub a.startAngle)) (JsNum.num acc) =
        JsNum.num (acc + 360 * valueTotal vs / T) := by
  intro vs
  induction vs with
  | nil => intro c acc; simp [toSliceData, chartSlicesGo, valueTotal]
  | cons q rest ih =>
      intro c acc
      have hdiv : ∀ a : ℚ, (JsNum.num a).div (JsNum.num T) = JsNum.num (a / T) :=
        fun a => JsNum.div_num a T hT
      simp only [toSliceData, List.map_cons, chartSlicesGo, List.foldl_cons, hdiv,
                 JsNum.mul_num, JsNum.add_num, JsNum.sub_num]
      have ihn := ih (c + q.1 / T * 360) (acc + (c + q.1 / T * 360 * 1 - c))
      simp only [toSliceData] at ihn
      rw [ihn]
      simp only [valueTotal, List.map_cons, List.sum_cons, JsNum.num.injEq]
      ring

theorem spanSum_chartSlices (vs : List (ℚ × String)) (hT : valueTotal vs ≠ 0) :
    spanSum (chartSlices (toSliceData vs) (JsNum.num 1)) = JsNum.num 360 := by
  unfold spanSum chartSlices
  rw [chartTotal_eq, spanSum_go (valueTotal vs) hT vs 0 0]
  rw [zero_add, mul_div_assoc, div_self hT, mul_one]

/-- With the parameters both screens use (width = height = 200,
outerRadius = 90), arc angle 0 - where the slice layout starts - lands
at (10, 100): the point at the left of the circle (center (100, 100),
radius 90), i.e. the nine-o-clock position.  The twelve-o-clock point
would be (100, 10). -/
theorem chartScreenPoint_startAngle :
    chartScreenPoint 200 200 90 0 = ((10 : ℝ), (100 : ℝ)) := by
  have hang : ((0 : ℝ) - 90) * Real.pi / 180 = -(Real.pi / 2) := by ring
  have hrot : ((-90 : ℝ)) * Real.pi / 180 = -(Real.pi / 2) := by ring
  have hcos : Real.cos (-(Real.pi / 2)) = 0 := by
    rw [Real.cos_neg, Real.cos_pi_div_two]
  have hsin : Real.sin (-(Real.pi / 2)) = -1 := by
    rw [Real.sin_neg, Real.sin_pi_div_two]
  simp only [chartScreenPoint, polarToCartesian, svgRotate]
  rw [hang, hrot, hcos, hsin]
  norm_num

/-! ## Claim C5 (proportional slices; where the layout starts) -/

/-- Claim C5 fails as stated on the 12-o-clock part: the slice layout
starts at arc angle 0 (first conjunct, on the concrete two-slice chart
both screens could render), but arc angle 0 is drawn at screen point
(10, 100) - the nine-o-clock point of the 200 by 200 chart with radius
90 - and not at the twelve-o-clock point (100, 10): `polarToCartesian`
already places angle 0 at the top, and the additional `rotation="-90"`
of the enclosing group moves the start a quarter turn counterclockwise. -/
theorem claim5_counterexample :
    ((chartSlices (toSliceData demoVs) (JsNum.num 1)).map ArcSpec.startAngle)[0]? =
      some (JsNum.num 0) ∧
    chartScreenPoint 200 200 90 0 = ((10 : ℝ), (100 : ℝ)) ∧
    ((10 : ℝ), (100 : ℝ)) ≠ ((100 : ℝ), (10 : ℝ)) := by
  refine ⟨by decide, chartScreenPoint_startAngle, ?_⟩
  intro h
  rw [Prod.ext_iff] at h
  exact absurd h.1 (by norm_num)

/-- Claim C5 as amended: for slice values with total T positive, at
progress 1 the renderer assigns slice i the angular span 360 * vi / T
(exactly, in the idealized rational model), the spans sum to 360
degrees, the slices are contiguous (slice i+1 starts where slice i
ends, the start of slice i being the sum of the spans of all preceding
slices), and the layout proceeds clockwise starting at arc angle 0,
which the enclosing rotated group places at the nine-o-clock screen
position (not twelve-o-clock). -/
theorem claim5_amended_proportionality (vs : List (ℚ × String)) (hT : 0 < valueTotal vs) :
    (chartSlices (toSliceData vs) (JsNum.num 1)).length = vs.length ∧
    (∀ (i : Nat) (v : ℚ) (col : String), vs[i]? = some (v, col) →
       (chartSlices (toSliceData vs) (JsNum.num 1))[i]? =
         some { startAngle := JsNum.num (360 * valueBefore vs i / valueTotal vs)
                endAngle := JsNum.num (360 * valueBefore vs i / valueTotal vs +
                                        360 * v / valueTotal vs)
                color := col }) ∧
    (∀ (i : Nat) (v : ℚ) (col : String), vs[i]? = some (v, col) →
       ((chartSlices (toSliceData vs) (JsNum.num 1))[i]?).map
           (fun a => a.endAngle.sub a.startAngle) =
         some (JsNum.num (360 * v / valueTotal vs))) ∧
    spanSum (chartSlices (toSliceData vs) (JsNum.num 1)) = JsNum.num 360 ∧
    (∀ (i : Nat) (v : ℚ) (col : String) (v2 : ℚ) (col2 : String),
       vs[i]? = some (v, col) → vs[i + 1]? = some (v2, col2) →
       ((chartSlices (toSliceData vs) (JsNum.num 1))[i + 1]?).map ArcSpec.startAngle =
         ((chartSlices (toSliceData vs) (JsNum.num 1))[i]?).map ArcSpec.endAngle) ∧
    chartScreenPoint 200 200 90 0 = ((10 : ℝ), (100 : ℝ)) := by
  have hT' : valueTotal vs ≠ 0 := ne_of_gt hT
  refine ⟨?_, ?_, ?_, spanSum_chartSlices vs hT', ?_, chartScreenPoint_startAngle⟩
  · rw [chartSlices_length]
    simp [toSliceData]
  · intro i v col h
    rw [chartSlices_getElem vs 1 hT' i v col h]
    simp only [Option.some.injEq, ArcSpec.mk.injEq, JsNum.num.injEq]
    refine ⟨trivial, by ring, trivial⟩
  · intro i v col h
    rw [chartSlices_getElem vs 1 hT' i v col h]
    simp only [Option.map_some', JsNum.sub_num, Option.some.injEq, JsNum.num.injEq]
    ring
  · intro i v col v2 col2 h1 h2
    rw [chartSlices_getElem vs 1 hT' i v col h1,
        chartSlices_getElem vs 1 hT' (i + 1) v2 col2 h2]
    simp only [Option.map_some', Option.some.injEq, JsNum.num.injEq]
    rw [valueBefore_succ_eq vs i v col h1]
    ring

theorem demoVs_total_pos : 0 < valueTotal demoVs := by
  norm_num [valueTotal, demoVs]

theorem demoVs_total_ne : valueTotal demoVs ≠ 0 :=
  ne_of_gt demoVs_total_pos

theorem q_half_nonneg : (0 : ℚ) ≤ 1 / 2 := by norm_num

theorem q_half_le_one : (1 / 2 : ℚ) ≤ 1 := by norm_num

theorem claim5_witness :
    0 < valueTotal demoVs ∧
    spanSum (chartSlices (toSliceData demoVs) (JsNum.num 1)) = JsNum.num 360 ∧
    (chartSlices (toSliceData demoVs) (JsNum.num 1))[0]? =
      some { startAngle := JsNum.num (360 * valueBefore demoVs 0 / valueTotal demoVs)
             endAngle := JsNum.num (360 * valueBefore demoVs 0 / valueTotal demoVs +
                                     360 * 1 / valueTotal demoVs)
             color := "#F44336" } :=
  ⟨demoVs_total_pos, (claim5_amended_proportionality demoVs demoVs_total_pos).2.2.2.1,
   (claim5_amended_proportionality demoVs demoVs_total_pos).2.1 0 1 "#F44336" rfl⟩

/-! ## Claim C8 (the progress animation) -/

/-- Claim C8: for every progress value p in [0, 1] and every slice, the
start angle is fixed at the cumulative full span of the preceding
slices while the end angle scales linearly with p; at p = 0 every slice
has zero angular width; and at p = 1 every slice carries its full
proportional span, so the animation leaves the terminal chart values
unchanged.  (Stated for charts with a nonzero value total; with an
all-zero total every angle is NaN at every progress, see the claim C4
development.) -/
theorem claim8_progress_animation (vs : List (ℚ × String)) (p : ℚ)
    (_hp0 : 0 ≤ p) (_hp1 : p ≤ 1) (hT : valueTotal vs ≠ 0) :
    (∀ (i : Nat) (v : ℚ) (col : String), vs[i]? = some (v, col) →
       (chartSlices (toSliceData vs) (JsNum.num p))[i]? =
         some { startAngle := JsNum.num (360 * valueBefore vs i / valueTotal vs)
                endAngle := JsNum.num (360 * valueBefore vs i / valueTotal vs +
                                        360 * v / valueTotal vs * p)
                color := col }) ∧
    (∀ (i : Nat) (v : ℚ) (col : String), vs[i]? = some (v, col) →
       ((chartSlices (toSliceData vs) (JsNum.num 0))[i]?).map
           (fun a => a.endAngle.sub a.startAngle) = some (JsNum.num 0)) ∧
    (∀ (i : Nat) (v : ℚ) (col : String), vs[i]? = some (v, col) →
       ((chartSlices (toSliceData vs) (JsNum.num 1))[i]?).map
           (fun a => a.endAngle.sub a.startAngle) =
         some (JsNum.num (360 * v / valueTotal vs))) := by
  refine ⟨?_, ?_, ?_⟩
  · intro i v col h
    exact chartSlices_getElem vs p hT i v col h
  · intro i v col h
    rw [chartSlices_getElem vs 0 hT i v col h]
    simp only [Option.map_some', JsNum.sub_num, Option.some.injEq, JsNum.num.injEq]
    ring
  · intro i v col h
    rw [chartSlices_getElem vs 1 hT i v col h]
    simp only [Option.map_some', JsNum.sub_num, Option.some.injEq, JsNum.num.injEq]
    ring

theorem claim8_witness :
    ((0 : ℚ) ≤ 1 / 2 ∧ (1 / 2 : ℚ) ≤ 1 ∧ valueTotal demoVs ≠ 0 ∧
      demoVs[0]? = some (1, "#F44336")) ∧
    (chartSlices (toSliceData demoVs) (JsNum.num (1 / 2)))[0]? =
      some { startAngle := JsNum.num (360 * valueBefore demoVs 0 / valueTotal demoVs)
             endAngle := JsNum.num (360 * valueBefore demoVs 0 / valueTotal demoVs +
                                     360 * 1 / valueTotal demoVs * (1 / 2))
             color := "#F44336" } :=
  ⟨⟨q_half_nonneg, q_half_le_one, demoVs_total_ne, rfl⟩,
   (claim8_progress_animation demoVs (1 / 2) q_half_nonneg q_half_le_one demoVs_total_ne).1
     0 1 "#F44336" rfl⟩
